import Mathlib

/-!
Verification of the FruitVision backend orchestration layer (app.py).

The file shallowly embeds the request handlers, the video-processing
handler and the WebSocket streaming loop of app.py.  The external
engines (Detector, Segmenter), the media codec (cv2.imdecode,
cv2.VideoCapture) are opaque collaborators per the specification and are
taken as function parameters; raised Python exceptions are modelled with
Except String, and FastAPI HTTPException responses with the HTTPException
structure below.
-/

namespace FruitVision

/-- Raw uploaded bytes. -/
abbrev Bytes := List Nat

/-- A decoded raster frame: cv2 images carry a height, a width and pixel
data; image.shape is (height, width, channels). -/
structure Frame where
  height : Nat
  width : Nat
  pix : List Nat
deriving DecidableEq

/-- A FastAPI HTTPException: status code plus detail message. -/
structure HTTPException where
  status_code : Nat
  detail : String
deriving DecidableEq

/-- Result dictionary of Detector.detect: a detection list and a
processing time (milliseconds). -/
structure DetectResult (D : Type) where
  detections : List D
  processing_time : ℚ
deriving DecidableEq

/-- Result dictionary of Segmenter.segment: mask list, object count and
processing time. -/
structure SegmentResult (M : Type) where
  masks : List M
  num_objects : Nat
  processing_time : ℚ
deriving DecidableEq

/-- The external Detector engine: a raster frame to a detection result,
or a raised exception. -/
abbrev Detector (D : Type) := Frame → Except String (DetectResult D)

/-- The external Segmenter engine. -/
abbrev Segmenter (M : Type) := Frame → Except String (SegmentResult M)

/-- Response model of POST /detect (models.DetectionResponse). -/
structure DetectionResponse (D : Type) where
  success : Bool
  detections : List D
  image_shape : Nat × Nat
  processing_time_ms : ℚ
deriving DecidableEq

/-- Response model of POST /segment (models.SegmentationResponse). -/
structure SegmentationResponse (M : Type) where
  success : Bool
  masks : List M
  num_objects : Nat
  processing_time_ms : ℚ
deriving DecidableEq

/-- Response model of POST /process-video (models.VideoProcessingResponse). -/
structure VideoProcessingResponse where
  success : Bool
  output_file : String
  total_frames : Nat
  total_detections : Nat
  fps : ℤ
  resolution : ℤ × ℤ
deriving DecidableEq

/-- Message of the exception raised downstream when cv2.imdecode returns
None and the null image is then used (detector.detect(None) or
image.shape on None). -/
def noneImageError : String := "NoneType object is not a valid image"

/-- Message of the AttributeError raised when the global detector handle
is None and detector.detect is accessed (streaming path). -/
def detectorNoneError : String := "NoneType object has no attribute detect"

/-- Embedding of detect_fruits (app.py lines 80-102).  The global
detector handle is the first argument; imdecode is the external codec,
returning none on undecodable bytes exactly as cv2.imdecode returns
None.  The body of the try block is an exception-propagating
computation; the except clause converts any raised exception into an
HTTPException with status 400, while an absent detector short-circuits
to 503 before the try block. -/
def detect_fruits {D : Type} (detector : Option (Detector D))
    (imdecode : Bytes → Option Frame) (contents : Bytes) :
    Except HTTPException (DetectionResponse D) :=
  match detector with
  | none => .error ⟨503, "Detector not loaded"⟩
  | some det =>
    let body : Except String (DetectionResponse D) := do
      let image ← match imdecode contents with
        | none => Except.error noneImageError
        | some img => Except.ok img
      let results ← det image
      Except.ok ⟨true, results.detections, (image.width, image.height),
        results.processing_time⟩
    match body with
    | .ok r => .ok r
    | .error e => .error ⟨400, e⟩

/-- Embedding of segment_fruits (app.py lines 104-125), symmetric to
detect_fruits against the segmenter handle. -/
def segment_fruits {M : Type} (segmenter : Option (Segmenter M))
    (imdecode : Bytes → Option Frame) (contents : Bytes) :
    Except HTTPException (SegmentationResponse M) :=
  match segmenter with
  | none => .error ⟨503, "Segmenter not loaded"⟩
  | some seg =>
    let body : Except String (SegmentationResponse M) := do
      let image ← match imdecode contents with
        | none => Except.error noneImageError
        | some img => Except.ok img
      let results ← seg image
      Except.ok ⟨true, results.masks, results.num_objects,
        results.processing_time⟩
    match body with
    | .ok r => .ok r
    | .error e => .error ⟨400, e⟩

/-- An uploaded multipart file: client-supplied filename plus content. -/
structure UploadFile where
  filename : String
  content : Bytes
deriving DecidableEq

/-- Container metadata read through cap.get: frame rate, width, height,
exact values as the media library reports them. -/
structure VideoMeta where
  fps : ℚ
  width : ℚ
  height : ℚ
deriving DecidableEq

/-- A video container: its metadata and the sequence of frames that
cap.read successfully yields, in order. -/
structure Video where
  meta : VideoMeta
  frames : List Frame
deriving DecidableEq

/-- A cv2.VideoCapture opened on an unreadable file raises nothing: it
reports 0.0 for every property and yields no frames. -/
def emptyCapture : Video := ⟨⟨0, 0, 0⟩, []⟩

/-- Python int() applied to a numeric value: truncation toward zero. -/
def pyInt (q : ℚ) : ℤ := if 0 ≤ q then ⌊q⌋ else ⌈q⌉

/-- Temp path chosen at app.py line 135: the string temp_ followed by the
client-supplied filename. -/
def temp_path (file : UploadFile) : String := "temp_" ++ file.filename

/-- Output path chosen at app.py line 140. -/
def output_path (file : UploadFile) : String := "output_" ++ file.filename

/-- The frame loop of process_video (app.py lines 154-163): read frames
in order, run the detector on each, extend the flat detections_list,
increment frame_count; a detector exception propagates out of the
loop. -/
def processFrames {D : Type} (det : Detector D) :
    List Frame → Nat → List D → Except String (Nat × List D)
  | [], frame_count, detections_list => .ok (frame_count, detections_list)
  | f :: rest, frame_count, detections_list =>
    match det f with
    | .error e => .error e
    | .ok r => processFrames det rest (frame_count + 1)
        (detections_list ++ r.detections)

/-- Observable outcome of one process_video call: the HTTP result, whether
the temp input file still exists on disk after the handler returns, and
the arguments the cv2.VideoWriter was opened with (none when the handler
returned before opening it). -/
structure PVOut where
  result : Except HTTPException VideoProcessingResponse
  tempExists : Bool
  writer : Option (String × ℤ × (ℤ × ℤ))

/-- Embedding of process_video (app.py lines 127-179).  readVideo is the
external media codec: the container the temp file's bytes denote, none
when unreadable (in which case cv2.VideoCapture degrades to
emptyCapture).  The temp file is written at the start of the try block;
os.remove(temp_path) at line 168 runs only after the frame loop
completes, so a detector exception mid-loop reaches the except clause
with the temp file still on disk.  The enable_segmentation flag exists in
the signature and is never read by the body. -/
def process_video {D : Type} (detector : Option (Detector D))
    (readVideo : Bytes → Option Video) (file : UploadFile)
    (enable_segmentation : Bool) : PVOut :=
  match detector with
  | none => ⟨.error ⟨503, "Detector not loaded"⟩, false, none⟩
  | some det =>
    let cap := (readVideo file.content).getD emptyCapture
    let fps := pyInt cap.meta.fps
    let width := pyInt cap.meta.width
    let height := pyInt cap.meta.height
    let writerArgs := (output_path file, fps, (width, height))
    match processFrames det cap.frames 0 [] with
    | .error e => ⟨.error ⟨400, e⟩, true, some writerArgs⟩
    | .ok (frame_count, detections_list) =>
      ⟨.ok ⟨true, output_path file, frame_count, detections_list.length,
          fps, (width, height)⟩,
        false, some writerArgs⟩

/-- Process-wide engine handles (the globals detector/segmenter of
app.py lines 47-48). -/
structure Registry (Det Seg : Type) where
  detector : Option Det
  segmenter : Option Seg
deriving DecidableEq

/-- Embedding of startup_event (app.py lines 50-60).  The two
constructor calls are executed in sequence with no exception handler in
the function body; the second component of the result is the exception
escaping the handler uncaught (none when startup completed).  On a
detector-init failure the globals are untouched; on a segmenter-init
failure the detector global has already been assigned. -/
def startup_event {Det Seg : Type} (initDetector : Except String Det)
    (initSegmenter : Except String Seg) (st : Registry Det Seg) :
    Registry Det Seg × Option String :=
  match initDetector with
  | .error e => (st, some e)
  | .ok d =>
    match initSegmenter with
    | .error e => ({ st with detector := some d }, some e)
    | .ok s => (⟨some d, some s⟩, none)

/-- An inbound WebSocket JSON message, classified by its type field:
either a frame message carrying hex-encoded image data, or a message of
any other kind. -/
inductive WsMsg where
  | frame (data : String)
  | other (kind : String)
deriving DecidableEq

/-- One event on the inbound side of a streaming connection: a received
JSON message, or a transport failure (websocket.receive_json raising). -/
inductive WsEvent where
  | msg (m : WsMsg)
  | transportFail
deriving DecidableEq

/-- One item of the observable per-connection trace: an inbound event
being read, or a detection_results response being sent. -/
inductive TraceItem (D : Type) where
  | recv (e : WsEvent)
  | sent (detections : List D) (latency : ℚ)
deriving DecidableEq

/-- Outcome of running a streaming session against a finite inbound
script: the interleaved receive/send trace, plus whether the connection
is still registered in the ConnectionManager's active set at the end.
Modelled from the spec for the manager (websocket_manager.py is not in
the sources): connect adds the session to the active set, disconnect
removes it. -/
structure WsRun (D : Type) where
  trace : List (TraceItem D)
  active : Bool
deriving DecidableEq

/-- Body of one iteration of the receive loop (app.py lines 189-205) on
an already-received message: a non-frame message matches no branch and
produces nothing; a frame message is hex-decoded (bytes.fromhex may
raise), imdecoded (None propagates into detector.detect, which raises),
run through the detector (absent handle raises AttributeError), and
yields the response payload. -/
def wsStep {D : Type} (detector : Option (Detector D))
    (fromHex : String → Except String Bytes)
    (imdecode : Bytes → Option Frame) :
    WsMsg → Except String (Option (List D × ℚ))
  | .other _ => .ok none
  | .frame data =>
    match fromHex data with
    | .error e => .error e
    | .ok bytes =>
      match detector with
      | none => .error detectorNoneError
      | some det =>
        match imdecode bytes with
        | none => .error noneImageError
        | some frame =>
          match det frame with
          | .error e => .error e
          | .ok r => .ok (some (r.detections, r.processing_time))

/-- Embedding of websocket_endpoint (app.py lines 181-209) run against a
finite inbound script.  manager.connect has registered the session; the
while-True loop reads one event at a time; any exception (transport
failure, or a raise inside the loop body) is caught by the handler's
except clause, which calls manager.disconnect and returns, so the run
ends deregistered with the remaining script unread.  An exhausted script
leaves the session open and registered, awaiting the next message. -/
def websocket_endpoint {D : Type} (detector : Option (Detector D))
    (fromHex : String → Except String Bytes)
    (imdecode : Bytes → Option Frame) : List WsEvent → WsRun D
  | [] => ⟨[], true⟩
  | .transportFail :: _ => ⟨[.recv .transportFail], false⟩
  | .msg m :: rest =>
    match wsStep detector fromHex imdecode m with
    | .error _ => ⟨[.recv (.msg m)], false⟩
    | .ok none =>
      let r := websocket_endpoint detector fromHex imdecode rest
      ⟨.recv (.msg m) :: r.trace, r.active⟩
    | .ok (some (ds, t)) =>
      let r := websocket_endpoint detector fromHex imdecode rest
      ⟨.recv (.msg m) :: .sent ds t :: r.trace, r.active⟩

/-- True when the event does not raise inside the receive loop: a
received message whose processing returns normally. -/
def eventOk {D : Type} (detector : Option (Detector D))
    (fromHex : String → Except String Bytes)
    (imdecode : Bytes → Option Frame) : WsEvent → Bool
  | .transportFail => false
  | .msg m =>
    match wsStep detector fromHex imdecode m with
    | .ok _ => true
    | .error _ => false

/-! Concrete fixtures used by witnesses and counterexamples. -/

/-- A detector that succeeds on every frame, reporting the frame's width
and height as two detections. -/
def goodDet : Detector Nat := fun f => .ok ⟨[f.width, f.height], 2⟩

/-- A detector that raises on every frame. -/
def badDet : Detector Nat := fun _ => .error "boom"

/-- A segmenter that succeeds on every frame with no masks. -/
def seg0 : Segmenter Nat := fun _ => .ok ⟨[], 0, 0⟩

/-- A 30 fps 640x480 container holding one readable frame. -/
def oneFrameVideo : Video := ⟨⟨30, 640, 480⟩, [⟨480, 640, []⟩]⟩

/-- A codec under which every byte string is the one-frame container. -/
def vread0 : Bytes → Option Video := fun _ => some oneFrameVideo

/-- A concrete upload. -/
def vfile0 : UploadFile := ⟨"clip.mp4", [1, 2, 3]⟩

/-- A 29.97 fps container with no readable frames. -/
def video2997 : Video := ⟨⟨2997 / 100, 640, 480⟩, []⟩

/-- A codec under which every byte string is the 29.97 fps container. -/
def vread2997 : Bytes → Option Video := fun _ => some video2997

/-- A codec that fails to decode any byte string (cv2.imdecode giving
None). -/
def imdecodeNone : Bytes → Option Frame := fun _ => none

/-- A codec that decodes every byte string to a fixed 2x3 frame. -/
def imdecodeConst : Bytes → Option Frame := fun _ => some ⟨2, 3, []⟩

/-- A hex decoder that accepts every payload as empty bytes. -/
def wHex0 : String → Except String Bytes := fun _ => .ok []

end FruitVision

namespace FruitVision

/-- Appending to a fixed string on the left is cancellative. -/
theorem string_append_left_cancel {s t u : String} (h : s ++ t = s ++ u) :
    t = u := by
  cases s with
  | mk a =>
    cases t with
    | mk b =>
      cases u with
      | mk c =>
        have hd : a ++ b = a ++ c := congrArg String.data h
        exact congrArg String.mk (List.append_cancel_left hd)

/-- Running the frame loop when the detector succeeds on every frame
yields the frame count and the per-frame detection lists concatenated in
frame order. -/
theorem processFrames_ok {D : Type} (det : Detector D)
    (res : Frame → DetectResult D) :
    ∀ (fs : List Frame), (∀ f ∈ fs, det f = .ok (res f)) →
      ∀ (n : Nat) (acc : List D),
        processFrames det fs n acc =
          .ok (n + fs.length, acc ++ (fs.map fun f => (res f).detections).flatten)
  | [], _, n, acc => by simp [processFrames]
  | f :: fs, h, n, acc => by
    have hf : det f = .ok (res f) := h f (by simp)
    have hrest := processFrames_ok det res fs (fun g hg => h g (by simp [hg]))
      (n + 1) (acc ++ (res f).detections)
    simp only [processFrames, hf, hrest, List.map_cons, List.flatten_cons,
      List.length_cons]
    have hn : n + 1 + fs.length = n + (fs.length + 1) := by omega
    rw [hn, List.append_assoc]

/-- C3: while the required engine handle is absent, /detect and /segment
return a 503 service-unavailable response for every input, valid or
malformed. -/
theorem c3_unready_always_503 {D M : Type} (imdecode : Bytes → Option Frame)
    (contents : Bytes) :
    detect_fruits (D := D) none imdecode contents =
      .error ⟨503, "Detector not loaded"⟩ ∧
    segment_fruits (M := M) none imdecode contents =
      .error ⟨503, "Segmenter not loaded"⟩ :=
  ⟨rfl, rfl⟩

/-- C4: when the engines are loaded but the uploaded bytes cannot be
decoded to a raster frame, /detect and /segment both return a structured
400 error with a message, not a success response. -/
theorem c4_undecodable_returns_400 {D M : Type} (det : Detector D)
    (seg : Segmenter M) (imdecode : Bytes → Option Frame) (contents : Bytes)
    (h : imdecode contents = none) :
    detect_fruits (some det) imdecode contents =
      .error ⟨400, noneImageError⟩ ∧
    segment_fruits (some seg) imdecode contents =
      .error ⟨400, noneImageError⟩ := by
  simp only [detect_fruits, segment_fruits, h]
  exact ⟨rfl, rfl⟩

/-- Witness for C4 at a concrete undecodable input. -/
theorem c4_undecodable_returns_400_witness :
    detect_fruits (some goodDet) imdecodeNone [7] =
      .error ⟨400, noneImageError⟩ ∧
    segment_fruits (some seg0) imdecodeNone [7] =
      .error ⟨400, noneImageError⟩ :=
  c4_undecodable_returns_400 goodDet seg0 imdecodeNone [7] rfl

/-- C5 counterexample: a detector-initialization failure escapes
startup_event uncaught (second component of the result), rather than
being caught and recorded by the handler; under the serving framework an
exception escaping a startup handler aborts application startup. -/
theorem c5_counterexample :
    (@startup_event Unit Unit (Except.error "model load failed")
        (Except.ok ()) ⟨none, none⟩).2 = some "model load failed" :=
  rfl

/-- C5 amended: an initialization failure of either engine propagates
uncaught out of startup_event (aborting startup under the framework);
the failed engine's handle stays unset, and a request dispatched while a
handle is absent receives a structured 503 response, not an unhandled
fault. -/
theorem c5_startup_failure_propagates {Det Seg D M : Type} (e1 e2 : String)
    (iSeg : Except String Seg) (d : Det) (st : Registry Det Seg)
    (imdecode : Bytes → Option Frame) (contents : Bytes) :
    startup_event (Except.error e1) iSeg st = (st, some e1) ∧
    startup_event (Except.ok d) (Except.error e2) st =
      ({ st with detector := some d }, some e2) ∧
    detect_fruits (D := D) none imdecode contents =
      .error ⟨503, "Detector not loaded"⟩ ∧
    segment_fruits (M := M) none imdecode contents =
      .error ⟨503, "Segmenter not loaded"⟩ :=
  ⟨rfl, rfl, rfl, rfl⟩

/-- C9 counterexample: two distinct requests whose uploads share the
client-supplied filename are persisted to the same temp path. -/
theorem c9_counterexample :
    (⟨"video.mp4", [0]⟩ : UploadFile) ≠ (⟨"video.mp4", [1]⟩ : UploadFile) ∧
    temp_path ⟨"video.mp4", [0]⟩ = temp_path ⟨"video.mp4", [1]⟩ := by
  refine ⟨?_, rfl⟩
  intro h
  have : ([0] : Bytes) = [1] := congrArg UploadFile.content h
  simp at this

/-- C9 amended: the temp path is the string temp_ followed by the
client-supplied filename, so two requests share a temp path exactly when
their uploads carry the same filename; distinct filenames give distinct
paths. -/
theorem c9_temp_path_shared_iff_same_filename (f1 f2 : UploadFile) :
    temp_path f1 = temp_path f2 ↔ f1.filename = f2.filename := by
  constructor
  · intro h
    exact string_append_left_cancel h
  · intro h
    simp [temp_path, h]

/-- C1 counterexample: with the engines loaded, a readable one-frame
container and a detector that raises mid-loop, process_video returns a
400 error while the temp input file still exists on disk. -/
theorem c1_counterexample :
    (process_video (some badDet) vread0 vfile0 false).tempExists = true ∧
    (process_video (some badDet) vread0 vfile0 false).result =
      .error ⟨400, "boom"⟩ :=
  ⟨rfl, rfl⟩

/-- C1 amended: the temp input file is removed on the success path, but
on a failure inside the handler body (a detector exception mid-loop) the
handler returns a 400 error with the temp input file still on disk. -/
theorem c1_cleanup_success_path_only {D : Type} (det : Detector D)
    (readVideo : Bytes → Option Video) (file : UploadFile) (es : Bool) :
    (∀ r, processFrames det ((readVideo file.content).getD emptyCapture).frames
        0 [] = .ok r →
      (process_video (some det) readVideo file es).tempExists = false) ∧
    (∀ e, processFrames det ((readVideo file.content).getD emptyCapture).frames
        0 [] = .error e →
      (process_video (some det) readVideo file es).tempExists = true ∧
      (process_video (some det) readVideo file es).result =
        .error ⟨400, e⟩) := by
  constructor
  · rintro ⟨fc, dl⟩ h
    simp [process_video, h]
  · intro e h
    simp [process_video, h]

/-- Witness for C1 amended: on a fully successful run the temp file is
gone after the handler returns. -/
theorem c1_cleanup_success_path_only_witness :
    (process_video (some goodDet) vread0 vfile0 false).tempExists = false :=
  (c1_cleanup_success_path_only goodDet vread0 vfile0 false).1
    (1, [640, 480]) rfl

/-- C2: on a video processed to completion, total_frames equals the
number of frames read from the container, total_detections equals the
sum over those frames of the per-frame detection counts, and the
accumulated detection list is the concatenation of the per-frame
detection lists in frame-index order. -/
theorem c2_totals_and_frame_order {D : Type} (det : Detector D)
    (res : Frame → DetectResult D) (readVideo : Bytes → Option Video)
    (file : UploadFile) (v : Video) (es : Bool)
    (hvid : readVideo file.content = some v)
    (hdet : ∀ f ∈ v.frames, det f = .ok (res f)) :
    processFrames det v.frames 0 [] =
      .ok (v.frames.length,
        (v.frames.map fun f => (res f).detections).flatten) ∧
    (process_video (some det) readVideo file es).result =
      .ok ⟨true, output_path file, v.frames.length,
        ((v.frames.map fun f => ((res f).detections).length)).sum,
        pyInt v.meta.fps, (pyInt v.meta.width, pyInt v.meta.height)⟩ := by
  have hpf := processFrames_ok det res v.frames hdet 0 []
  simp only [Nat.zero_add, List.nil_append] at hpf
  refine ⟨hpf, ?_⟩
  simp only [process_video, hvid, Option.getD_some, hpf]
  simp [List.length_flatten, List.map_map, Function.comp_def]

/-- Witness for C2 on a concrete one-frame container. -/
theorem c2_totals_and_frame_order_witness :
    (process_video (some goodDet) vread0 vfile0 false).result =
      .ok ⟨true, "output_clip.mp4", 1, 2, 30, (640, 480)⟩ := by
  have h := (c2_totals_and_frame_order goodDet
      (fun f => ⟨[f.width, f.height], 2⟩) vread0 vfile0 oneFrameVideo false
      rfl (fun f _ => rfl)).2
  simpa [oneFrameVideo, vfile0, output_path, pyInt] using h

/-- C10: the fps and resolution reported by process_video, and the
parameters the output writer is opened with, are the Python-int
truncations of the exact container metadata; a 29.97 container rate is
truncated to 29 and never reported exactly. -/
theorem c10_metadata_truncated {D : Type} (det : Detector D)
    (readVideo : Bytes → Option Video) (file : UploadFile) (es : Bool)
    (v : Video) (hvid : readVideo file.content = some v) :
    (process_video (some det) readVideo file es).writer =
      some (output_path file, pyInt v.meta.fps,
        (pyInt v.meta.width, pyInt v.meta.height)) ∧
    (∀ resp, (process_video (some det) readVideo file es).result =
        Except.ok resp →
      resp.fps = pyInt v.meta.fps ∧
      resp.resolution = (pyInt v.meta.width, pyInt v.meta.height)) ∧
    pyInt (2997 / 100) = 29 ∧ (2997 / 100 : ℚ) ≠ (29 : ℚ) := by
  refine ⟨?_, ?_, by unfold pyInt; norm_num, by norm_num⟩
  · simp only [process_video, hvid, Option.getD_some]
    cases h : processFrames det v.frames 0 [] with
    | error e => simp [h]
    | ok r => simp [h]
  · intro resp hresp
    simp only [process_video, hvid, Option.getD_some] at hresp
    cases h : processFrames det v.frames 0 [] with
    | error e => rw [h] at hresp; simp at hresp
    | ok r =>
      rw [h] at hresp
      cases r with
      | mk fc dl =>
        simp only [Except.ok.injEq] at hresp
        rw [← hresp]
        exact ⟨rfl, rfl⟩

/-- Witness for C10 on a concrete 29.97 fps container. -/
theorem c10_metadata_truncated_witness :
    (process_video (some goodDet) vread2997 vfile0 false).writer =
      some ("output_clip.mp4", 29, (640, 480)) := by
  have h := (c10_metadata_truncated goodDet vread2997 vfile0 false
      video2997 rfl).1
  rw [h]
  norm_num [video2997, vfile0, output_path, pyInt]
  rfl

/-- C6: a received message whose type is not frame matches no branch of
the loop body: no response is emitted, the session is not terminated,
and the receive loop continues with the remaining inbound messages as if
the message had not occurred. -/
theorem c6_nonframe_message_continues {D : Type}
    (detector : Option (Detector D)) (fromHex : String → Except String Bytes)
    (imdecode : Bytes → Option Frame) (k : String) (rest : List WsEvent) :
    websocket_endpoint detector fromHex imdecode (.msg (.other k) :: rest) =
      ⟨.recv (.msg (.other k)) ::
          (websocket_endpoint detector fromHex imdecode rest).trace,
        (websocket_endpoint detector fromHex imdecode rest).active⟩ := by
  simp [websocket_endpoint, wsStep]

/-- C7: on a script of frame messages that all process successfully, the
session trace is strictly request/response: each detection response is
sent before the next inbound frame is read, so the trace is exactly
receive F1, send R1, receive F2, send R2, ..., and the session stays
registered. -/
theorem c7_strict_request_response {D : Type} (detector : Option (Detector D))
    (fromHex : String → Except String Bytes) (imdecode : Bytes → Option Frame)
    (ps : List String) (out : String → List D × ℚ)
    (h : ∀ p ∈ ps,
      wsStep detector fromHex imdecode (.frame p) = .ok (some (out p))) :
    websocket_endpoint detector fromHex imdecode
        (ps.map fun p => .msg (.frame p)) =
      ⟨(ps.map fun p => [TraceItem.recv (.msg (.frame p)),
          TraceItem.sent (out p).1 (out p).2]).flatten, true⟩ := by
  induction ps with
  | nil => rfl
  | cons p ps ih =>
    have hp := h p (by simp)
    have hrest := ih (fun q hq => h q (by simp [hq]))
    cases hop : out p with
    | mk ds t =>
      rw [hop] at hp
      simp [websocket_endpoint, hp, hrest, hop]

/-- Witness for C7 on a two-frame script against a loaded detector. -/
theorem c7_strict_request_response_witness :
    websocket_endpoint (some goodDet) wHex0 imdecodeConst
        [.msg (.frame "aa"), .msg (.frame "bb")] =
      ⟨[.recv (.msg (.frame "aa")), .sent [3, 2] 2,
        .recv (.msg (.frame "bb")), .sent [3, 2] 2], true⟩ := by
  have h := c7_strict_request_response (some goodDet) wHex0 imdecodeConst
      ["aa", "bb"] (fun _ => ([3, 2], 2)) (fun p _ => rfl)
  simpa using h

/-- C8: when an event raises inside the receive loop (transport failure,
malformed payload, absent engine handle, or engine exception), the
handler's except clause runs: the session is removed from the manager's
active set, and none of the events after the failing one is read or
processed — the trace ends at the failing receive. -/
theorem c8_error_deregisters_and_stops {D : Type}
    (detector : Option (Detector D)) (fromHex : String → Except String Bytes)
    (imdecode : Bytes → Option Frame) (pre : List WsEvent) (bad : WsEvent)
    (post : List WsEvent)
    (hpre : ∀ e ∈ pre, eventOk detector fromHex imdecode e = true)
    (hbad : eventOk detector fromHex imdecode bad = false) :
    (websocket_endpoint detector fromHex imdecode
        (pre ++ bad :: post)).active = false ∧
    (websocket_endpoint detector fromHex imdecode
        (pre ++ bad :: post)).trace =
      (websocket_endpoint detector fromHex imdecode pre).trace
        ++ [TraceItem.recv bad] := by
  induction pre with
  | nil =>
    cases bad with
    | transportFail => simp [websocket_endpoint]
    | msg m =>
      cases hstep : wsStep detector fromHex imdecode m with
      | error e => simp [websocket_endpoint, hstep]
      | ok r =>
        exfalso
        simp [eventOk, hstep] at hbad
  | cons e pre ih =>
    have he := hpre e (by simp)
    have hrest := ih (fun g hg => hpre g (by simp [hg]))
    cases e with
    | transportFail => simp [eventOk] at he
    | msg m =>
      cases hstep : wsStep detector fromHex imdecode m with
      | error er => simp [eventOk, hstep] at he
      | ok r =>
        cases r with
        | none =>
          simp only [List.cons_append, websocket_endpoint, hstep]
          exact ⟨hrest.1, by simp [hrest.2]⟩
        | some dt =>
          cases dt with
          | mk ds t =>
            simp only [List.cons_append, websocket_endpoint, hstep]
            exact ⟨hrest.1, by simp [hrest.2]⟩

/-- Witness for C8: with the detector handle absent, a frame message
raises after one harmless non-frame message; the session ends
deregistered and the frame queued after the failure is never read. -/
theorem c8_error_deregisters_and_stops_witness :
    (websocket_endpoint (D := Nat) none wHex0 imdecodeConst
        ([.msg (.other "ping")] ++
          .msg (.frame "aa") :: [.msg (.frame "bb")])).active = false ∧
    (websocket_endpoint (D := Nat) none wHex0 imdecodeConst
        ([.msg (.other "ping")] ++
          .msg (.frame "aa") :: [.msg (.frame "bb")])).trace =
      (websocket_endpoint (D := Nat) none wHex0 imdecodeConst
          [.msg (.other "ping")]).trace
        ++ [TraceItem.recv (.msg (.frame "aa"))] := by
  refine c8_error_deregisters_and_stops none wHex0 imdecodeConst
      [.msg (.other "ping")] (.msg (.frame "aa")) [.msg (.frame "bb")] ?_ rfl
  intro e he
  simp at he
  subst he
  rfl

end FruitVision
